import Mathlib

/-!
Verification of the routerui firewall commit/rollback engine and dashboard
client.

Part I embeds the network-configuration commit/rollback engine.  The engine
itself (RuleCompiler, RuleStore, RuleApplier, ChangeSession, StatusReporter)
is not among the shipped sources of the repository — only its dashboard
client is — so the engine definitions below are modelled from the words of
the specification and are marked as such in their doc comments.

Part II embeds the firewall page of the dashboard client
(`frontend/src/routes/firewall/+page.svelte`), translated directly from the
source: request bodies built by the handlers, the guards deciding whether a
request is issued at all, and the pure display helpers.
-/

namespace RouterUI

/-! ## Part I: the commit/rollback engine, modelled from the spec -/

/-- Modelled from the spec: default policy values, `Policy(ACCEPT|DROP)`. -/
inductive Policy where
  | ACCEPT
  | DROP
deriving DecidableEq, Repr

/-- Modelled from the spec: `FirewallPolicy` record
`{ enabled, input_policy, forward_policy, output_policy }`. -/
structure FirewallPolicy where
  enabled : Bool
  input_policy : Policy
  forward_policy : Policy
  output_policy : Policy
deriving DecidableEq, Repr

/-- Modelled from the spec: `PortForward.protocol`, `TCP|UDP|BOTH`. -/
inductive Protocol where
  | TCP
  | UDP
  | BOTH
deriving DecidableEq, Repr

/-- Modelled from the spec: `PortForward`
`{ protocol, external_port: u16, internal_ip: IPv4, internal_port: u16 }`.
IP addresses are kept in their textual form. -/
structure PortForward where
  protocol : Protocol
  external_port : Nat
  internal_ip : String
  internal_port : Nat
deriving DecidableEq, Repr

/-- Modelled from the spec: `DMZConfig { enabled, target_ip: Option<IPAddress> }`. -/
structure DMZConfig where
  enabled : Bool
  target_ip : Option String
deriving DecidableEq, Repr

/-- Split a character list at every occurrence of the separator `c`. -/
def splitOnChar (c : Char) : List Char → List (List Char)
  | [] => [[]]
  | x :: xs =>
    match splitOnChar c xs, decide (x = c) with
    | rest, true => [] :: rest
    | [], false => [[x]]
    | r :: rs, false => (x :: r) :: rs

/-- Decimal value of a digit list. -/
def digitsVal (cs : List Char) : Nat :=
  cs.foldl (fun acc c => acc * 10 + (c.toNat - 48)) 0

/-- A single textual IPv4 octet: nonempty, all digits, value at most 255. -/
def validOctet (cs : List Char) : Bool :=
  !cs.isEmpty && cs.all Char.isDigit && digitsVal cs ≤ 255

/-- Modelled from the spec: well-formedness of an IPv4 address referenced by a
`PortForward` ("malformed IP" is a compile failure): four dot-separated
decimal octets, each at most 255. -/
def validIPv4 (s : String) : Bool :=
  let parts := splitOnChar '.' s.data
  parts.length = 4 && parts.all validOctet

/-- Modelled from the spec: well-formedness of a `u16` port referenced by a
`PortForward` ("malformed port" is a compile failure): nonzero and at most
65535. -/
def validPort (p : Nat) : Bool :=
  0 < p && p ≤ 65535

/-- Modelled from the spec: a `PortForward` is malformed when it references a
malformed IP or port. -/
def validForward (pf : PortForward) : Bool :=
  validIPv4 pf.internal_ip && validPort pf.external_port && validPort pf.internal_port

/-- Modelled from the spec: one low-level rule of the compiled `RuleSet`.  The
constructors are the six rule groups of the RuleCompiler contract:
established/related accept, LAN accept, blocked-IP DROP, DMZ forward-all,
per-entry port forward, and the trailing default-policy rule. -/
inductive Rule where
  | acceptEstablished
  | acceptLAN
  | dropIP (ip : String)
  | dmzForwardAll (target : String)
  | portForward (pf : PortForward)
  | defaultPolicy (p : Policy)
deriving DecidableEq, Repr

/-- Modelled from the spec: `RuleSet`, the compiled ordered sequence of
low-level rules; compared only by equality of the compiled form. -/
abbrev RuleSet := List Rule

/-- Modelled from the spec: the error taxonomy of §7. -/
inductive EngineError where
  | CompileError
  | ApplyError
  | ConflictError
  | NotFoundError
deriving DecidableEq, Repr

/-- Modelled from the spec: the default-policy rule placed last by the
compiler.  When the firewall is enabled the forward policy applies to
unmatched traffic; when disabled everything is accepted. -/
def defaultRule (policy : FirewallPolicy) : Rule :=
  if policy.enabled then Rule.defaultPolicy policy.forward_policy
  else Rule.defaultPolicy Policy.ACCEPT

/-- Modelled from the spec: `compile(policy, forwards, blocked, dmz) -> RuleSet`,
pure and deterministic, with the fixed ordering (1) established/related,
(2) LAN, (3) blocked-IP DROP rules, (4) DMZ forward-all if enabled,
(5) per-entry port forwards, (6) default policy last.  Returns a compilation
error (never partial output) if a `PortForward` references a malformed
IP/port or DMZ is enabled with no target. -/
def compile (policy : FirewallPolicy) (forwards : List PortForward)
    (blocked : List String) (dmz : DMZConfig) : Except EngineError RuleSet :=
  if dmz.enabled ∧ dmz.target_ip = none then
    Except.error EngineError.CompileError
  else if ¬ forwards.all validForward then
    Except.error EngineError.CompileError
  else
    Except.ok <|
      [Rule.acceptEstablished, Rule.acceptLAN]
        ++ blocked.map Rule.dropIP
        ++ (match dmz.target_ip with
            | some t => if dmz.enabled then [Rule.dmzForwardAll t] else []
            | none => [])
        ++ forwards.map Rule.portForward
        ++ [defaultRule policy]

/-- A rule that delivers traffic to a forward or DMZ target. -/
def isForwardRule : Rule → Bool
  | Rule.dmzForwardAll _ => true
  | Rule.portForward _ => true
  | _ => false

/-- Modelled from the spec: the `Staged|Confirmed|Reverted` lifecycle states
of a `PendingChange`. -/
inductive ChangeState where
  | Staged
  | Confirmed
  | Reverted
deriving DecidableEq, Repr

/-- Modelled from the spec: `PendingChange`
`{ id, created_at, timeout_seconds (fixed at 120), rules_before, rules_after, state }`. -/
structure PendingChange where
  id : Nat
  created_at : Nat
  timeout_seconds : Nat
  rules_before : RuleSet
  rules_after : RuleSet
  state : ChangeState
deriving DecidableEq

/-- Modelled from the spec: the state owned by ChangeSession together with the
durable RuleStore records.  `activeRules` is the committed active RuleSet of
the store, `liveRules` the rule set last installed by RuleApplier, and
`pendingSlot` the durable current pending record slot (the central invariant
is that it holds at most one record).  `nextId` generates opaque tokens. -/
structure EngineState where
  activeRules : RuleSet
  liveRules : RuleSet
  pendingSlot : List PendingChange
  nextId : Nat
deriving DecidableEq

/-- Result of a `stage` call: a new staged change, a short-circuited no-op
change, or a synchronous error. -/
inductive StageResult where
  | staged (pc : PendingChange)
  | confirmedNoop
  | failed (e : EngineError)
deriving DecidableEq

/-- Modelled from the spec: `ChangeSession.stage`.  A stage attempted while a
change is pending is rejected with `ConflictError` and no side effects;
otherwise the inputs are compiled, a no-op change (compiled rules equal to
the active rules) short-circuits without creating observable pending state,
and on a successful apply a `PendingChange` with `timeout_seconds = 120` is
persisted and the compiled rules installed.  An apply failure (the `applyOk`
parameter models the RuleApplier outcome) leaves the previously active
RuleSet untouched. -/
def stage (now : Nat) (applyOk : Bool) (policy : FirewallPolicy)
    (forwards : List PortForward) (blocked : List String) (dmz : DMZConfig)
    (st : EngineState) : StageResult × EngineState :=
  if st.pendingSlot = [] then
    match compile policy forwards blocked dmz with
    | Except.error e => (StageResult.failed e, st)
    | Except.ok rs =>
      if rs = st.activeRules then
        (StageResult.confirmedNoop, st)
      else if applyOk then
        let pc : PendingChange :=
          { id := st.nextId, created_at := now, timeout_seconds := 120,
            rules_before := st.activeRules, rules_after := rs,
            state := ChangeState.Staged }
        (StageResult.staged pc,
         { activeRules := st.activeRules, liveRules := rs,
           pendingSlot := pc :: st.pendingSlot, nextId := st.nextId + 1 })
      else
        (StageResult.failed EngineError.ApplyError, st)
  else
    (StageResult.failed EngineError.ConflictError, st)

/-- Modelled from the spec: `ChangeSession.confirm`.  With a pending change,
commit `rules_after` as active, clear the pending slot and cancel the timer;
the rules stay live (confirm never re-applies).  With none, `NotFoundError`. -/
def confirm (st : EngineState) : Except EngineError (PendingChange × EngineState) :=
  match st.pendingSlot with
  | [] => Except.error EngineError.NotFoundError
  | pc :: _ =>
    Except.ok ({ pc with state := ChangeState.Confirmed },
      { activeRules := pc.rules_after, liveRules := st.liveRules,
        pendingSlot := [], nextId := st.nextId })

/-- Modelled from the spec: `ChangeSession.revert` (explicit).  With a pending
change, apply the emergency rollback to `rules_before`, commit it as active,
clear the pending slot and cancel the timer; with none, `NotFoundError`. -/
def revert (st : EngineState) : Except EngineError (PendingChange × EngineState) :=
  match st.pendingSlot with
  | [] => Except.error EngineError.NotFoundError
  | pc :: _ =>
    Except.ok ({ pc with state := ChangeState.Reverted },
      { activeRules := pc.rules_before, liveRules := pc.rules_before,
        pendingSlot := [], nextId := st.nextId })

/-- Modelled from the spec: the timer firing at wall-clock `now` for the
scheduled change `fireId`.  The guarded transition reverts only when the
pending record matches the key, is still `Staged`, and the clock has reached
`created_at + timeout_seconds`; otherwise it is a no-op.  Returns the
terminalised record when it fires. -/
def timeoutFire (now : Nat) (fireId : Nat) (st : EngineState) :
    Option PendingChange × EngineState :=
  match st.pendingSlot with
  | [] => (none, st)
  | pc :: _ =>
    if pc.id = fireId ∧ pc.state = ChangeState.Staged ∧
        pc.created_at + pc.timeout_seconds ≤ now then
      (some { pc with state := ChangeState.Reverted },
       { activeRules := pc.rules_before, liveRules := pc.rules_before,
         pendingSlot := [], nextId := st.nextId })
    else
      (none, st)

/-- Modelled from the spec: restart recovery.  On startup, if a `Staged`
pending record is found it is immediately and unconditionally reverted to
`rules_before` (fail-safe default); a terminal record is cleared from the
current slot. -/
def restartRecover (st : EngineState) : EngineState :=
  match st.pendingSlot with
  | [] => st
  | pc :: _ =>
    if pc.state = ChangeState.Staged then
      { activeRules := pc.rules_before, liveRules := pc.rules_before,
        pendingSlot := [], nextId := st.nextId }
    else
      { activeRules := st.activeRules, liveRules := st.liveRules,
        pendingSlot := [], nextId := st.nextId }

/-- The operations of the engine, as a single alphabet for invariant
statements. -/
inductive Op where
  | stage (now : Nat) (applyOk : Bool) (policy : FirewallPolicy)
      (forwards : List PortForward) (blocked : List String) (dmz : DMZConfig)
  | confirm
  | revert
  | timeout (now : Nat) (fireId : Nat)
  | restart

/-- The state reached by running one operation, discarding its result. -/
def applyOp : Op → EngineState → EngineState
  | Op.stage now applyOk p f b d, st => (stage now applyOk p f b d st).2
  | Op.confirm, st =>
    match confirm st with
    | Except.ok (_, next) => next
    | Except.error _ => st
  | Op.revert, st =>
    match revert st with
    | Except.ok (_, next) => next
    | Except.error _ => st
  | Op.timeout now fireId, st => (timeoutFire now fireId st).2
  | Op.restart, st => restartRecover st

/-- The central invariant: the current pending slot holds at most one
record. -/
def atMostOnePending (st : EngineState) : Prop :=
  st.pendingSlot.length ≤ 1

instance (st : EngineState) : Decidable (atMostOnePending st) := by
  unfold atMostOnePending
  infer_instance

/-! ## Part II: the dashboard firewall page, translated from
`frontend/src/routes/firewall/+page.svelte` -/

namespace Frontend

/-- Truthiness of a JavaScript string: falsy exactly when empty. -/
def jsStringTruthy (s : String) : Bool :=
  s != ""

/-- JavaScript `trim()`: strips whitespace from both ends of a string. -/
def jsTrim (s : String) : String :=
  String.mk (((s.data.dropWhile Char.isWhitespace).reverse.dropWhile
    Char.isWhitespace).reverse)

/-- HTTP method of a request issued by the page. -/
inductive HttpMethod where
  | GET
  | POST
deriving DecidableEq, Repr

/-- Shape of a fetch call issued by the page: method, path, and whether a
body is attached. -/
structure HttpRequest where
  method : HttpMethod
  path : String
  hasBody : Bool
deriving DecidableEq, Repr

/-- The `status` object fetched from `GET /api/firewall/status`. -/
structure FirewallStatus where
  enabled : Bool
  input_policy : String
  forward_policy : String
  output_policy : String
deriving DecidableEq, Repr

/-- A port-forward entry as listed by `GET /api/firewall/port-forwards`. -/
structure PortForwardEntry where
  protocol : String
  external_port : Int
  internal_ip : String
  internal_port : Int
deriving DecidableEq, Repr

/-- The `dmz` object fetched from `GET /api/firewall/dmz`. -/
structure DMZInfo where
  enabled : Bool
  target_ip : Option String
deriving DecidableEq, Repr

/-- The `pendingInfo` object fetched from `GET /api/firewall/pending`. -/
structure PendingInfo where
  pending : Bool
  seconds_remaining : Option Nat
deriving DecidableEq, Repr

/-- The `rawRules` object fetched from `GET /api/firewall/rules`. -/
structure RawRules where
  filter : String
  nat : String
deriving DecidableEq, Repr

/-- The reactive state of the firewall page (`$state` variables). -/
structure PageState where
  status : Option FirewallStatus
  portForwards : List PortForwardEntry
  blockedIPs : List String
  dmz : Option DMZInfo
  rawRules : Option RawRules
  showRawRules : Bool
  pendingInfo : PendingInfo
deriving DecidableEq

/-- `fetchRawRules`: the request it issues — a GET of
`/api/firewall/rules` with no body attached. -/
def fetchRawRulesRequest : HttpRequest :=
  { method := HttpMethod.GET, path := "/api/firewall/rules", hasBody := false }

/-- `fetchRawRules`: the state update performed on response.  `resp` is
`some r` when `res.ok`; only `rawRules` is assigned. -/
def fetchRawRulesHandler (resp : Option RawRules) (s : PageState) : PageState :=
  match resp with
  | some r => { s with rawRules := some r }
  | none => s

/-- The click handler of the Show Raw Rules button:
`showRawRules = !showRawRules; if (showRawRules && !rawRules) fetchRawRules()`. -/
def showRawRulesClick (resp : Option RawRules) (s : PageState) : PageState :=
  let s1 := { s with showRawRules := !s.showRawRules }
  if s1.showRawRules && s1.rawRules.isNone then fetchRawRulesHandler resp s1
  else s1

/-- Body of the `POST /api/firewall/toggle` request. -/
structure ToggleBody where
  enabled : Bool
deriving DecidableEq, Repr

/-- `toggleFirewall`: the body it sends, `{ enabled: !status.enabled }`. -/
def toggleFirewallBody (status : FirewallStatus) : ToggleBody :=
  { enabled := !status.enabled }

/-- Body of the `POST /api/firewall/dmz/set` request. -/
structure DMZSetBody where
  enabled : Bool
  target_ip : Option String
deriving DecidableEq, Repr

/-- `setDMZ`: the body it sends,
`{ enabled: !!dmzIP.trim(), target_ip: dmzIP.trim() || null }`. -/
def setDMZBody (dmzIP : String) : DMZSetBody :=
  { enabled := jsStringTruthy (jsTrim dmzIP),
    target_ip := if jsStringTruthy (jsTrim dmzIP) then some (jsTrim dmzIP)
                 else none }

/-- `disableDMZ`: the body it sends, `{ enabled: false, target_ip: null }`. -/
def disableDMZBody : DMZSetBody :=
  { enabled := false, target_ip := none }

/-- `removePortForward(pf)`: the body it sends, spreading the four fields of
the listed entry. -/
def removePortForwardBody (pf : PortForwardEntry) : PortForwardEntry :=
  { protocol := pf.protocol, external_port := pf.external_port,
    internal_ip := pf.internal_ip, internal_port := pf.internal_port }

/-- The uniqueness key of a port-forward body: `(protocol, external_port)`. -/
def portForwardKey (b : PortForwardEntry) : String × Int :=
  (b.protocol, b.external_port)

/-- The protocol select of the add-port-forward form offers exactly the
options tcp, udp and both. -/
inductive ProtocolOption where
  | tcp
  | udp
  | both
deriving DecidableEq, Repr

/-- The string value carried by a protocol select option. -/
def ProtocolOption.value : ProtocolOption → String
  | ProtocolOption.tcp => "tcp"
  | ProtocolOption.udp => "udp"
  | ProtocolOption.both => "both"

/-- Value held by a number input bound with `bind:value`: a number, or blank
when the field is empty. -/
inductive NumberInputVal where
  | num (n : Int)
  | blank
deriving DecidableEq, Repr

/-- JavaScript truthiness of a number-input value: `0` and blank are falsy. -/
def jsNumberTruthy : NumberInputVal → Bool
  | NumberInputVal.num n => n != 0
  | NumberInputVal.blank => false

/-- JavaScript `parseInt` on a number-input value: an integer stays itself,
the blank string parses to NaN (`none`). -/
def jsParseInt : NumberInputVal → Option Int
  | NumberInputVal.num n => some n
  | NumberInputVal.blank => none

/-- The `newPortForward` form state. -/
structure NewPortForwardForm where
  protocol : ProtocolOption
  external_port : NumberInputVal
  internal_ip : String
  internal_port : NumberInputVal

/-- Body of the `POST /api/firewall/port-forwards/add` request. -/
structure AddPortForwardBody where
  protocol : String
  external_port : Option Int
  internal_ip : String
  internal_port : Option Int
deriving DecidableEq, Repr

/-- `addPortForward`: returns early (no request) unless all three of
external_port, internal_ip and internal_port are truthy; otherwise sends
the body with `parseInt` applied to both port fields. -/
def addPortForwardRequest (form : NewPortForwardForm) : Option AddPortForwardBody :=
  if jsNumberTruthy form.external_port ∧ jsStringTruthy form.internal_ip ∧
      jsNumberTruthy form.internal_port then
    some { protocol := form.protocol.value,
           external_port := jsParseInt form.external_port,
           internal_ip := form.internal_ip,
           internal_port := jsParseInt form.internal_port }
  else
    none

/-- JavaScript `padStart(len, c)` on a string. -/
def padStart (len : Nat) (c : Char) (s : String) : String :=
  if len ≤ s.length then s
  else String.mk (List.replicate (len - s.length) c) ++ s

/-- `formatTime`: minutes as `Math.floor(seconds / 60)`, a colon, and
`seconds % 60` two-digit zero-padded. -/
def formatTime (seconds : Nat) : String :=
  let mins := seconds / 60
  let secs := seconds % 60
  toString mins ++ ":" ++ padStart 2 '0' (toString secs)

/-- Transcription of claim C9, for comparison with `formatTime`: the string
consisting of `seconds / 60`, a colon, and `seconds % 60` zero-padded to two
digits. -/
def formatTimeClaim (seconds : Nat) : String :=
  toString (seconds / 60) ++ ":" ++
    (if seconds % 60 < 10 then "0" ++ toString (seconds % 60)
     else toString (seconds % 60))

/-- The countdown text of the pending banner:
`formatTime(pendingInfo.seconds_remaining || 0)`; `0 || 0` is `0`, so the
fallback is `Option.getD 0` on the model. -/
def bannerCountdownText (pi : PendingInfo) : String :=
  formatTime (pi.seconds_remaining.getD 0)

end Frontend

/-- Equality of compiled results is decidable, enabling concrete witness
evaluation. -/
instance {e a : Type} [DecidableEq e] [DecidableEq a] : DecidableEq (Except e a) := fun x y =>
  match x, y with
  | Except.ok u, Except.ok v => decidable_of_iff (u = v) (by simp)
  | Except.error u, Except.error v => decidable_of_iff (u = v) (by simp)
  | Except.ok _, Except.error _ => isFalse (by simp)
  | Except.error _, Except.ok _ => isFalse (by simp)

/-! ## Concrete sample values used by witness theorems -/

/-- A small concrete RuleSet. -/
def sampleRules : RuleSet := [Rule.defaultPolicy Policy.ACCEPT]

/-- A second, distinct concrete RuleSet. -/
def sampleRules2 : RuleSet := [Rule.acceptEstablished, Rule.defaultPolicy Policy.DROP]

/-- A concrete staged pending change. -/
def samplePending : PendingChange :=
  { id := 7, created_at := 1000, timeout_seconds := 120,
    rules_before := sampleRules, rules_after := sampleRules2,
    state := ChangeState.Staged }

/-- A concrete engine state with one staged pending change. -/
def samplePendingState : EngineState :=
  { activeRules := sampleRules, liveRules := sampleRules2,
    pendingSlot := [samplePending], nextId := 8 }

/-- A concrete idle engine state. -/
def sampleIdleState : EngineState :=
  { activeRules := sampleRules, liveRules := sampleRules,
    pendingSlot := [], nextId := 0 }

/-- A concrete firewall policy. -/
def samplePolicy : FirewallPolicy :=
  { enabled := true, input_policy := Policy.DROP,
    forward_policy := Policy.DROP, output_policy := Policy.ACCEPT }

/-- A concrete disabled DMZ configuration. -/
def sampleDMZOff : DMZConfig := { enabled := false, target_ip := none }

/-- A concrete port forward targeting the IP `10.0.0.2`. -/
def sampleForward : PortForward :=
  { protocol := Protocol.TCP, external_port := 80,
    internal_ip := "10.0.0.2", internal_port := 8080 }

/-! ## Claims about the engine -/

/-- C1: at every reachable state of the engine, exactly zero or one
PendingChange exists — every operation (stage, confirm, revert,
timeout-revert, restart recovery) preserves the predicate that the current
pending slot holds at most one record. -/
theorem ops_preserve_atMostOnePending (op : Op) (st : EngineState)
    (h : atMostOnePending st) : atMostOnePending (applyOp op st) := by
  unfold atMostOnePending at h ⊢
  cases op with
  | stage now applyOk p f b d =>
    unfold applyOp stage
    by_cases hp : st.pendingSlot = []
    · cases hc : compile p f b d with
      | error e => simp [hp, hc]
      | ok rs =>
        by_cases hr : rs = st.activeRules
        · simp [hp, hc, hr]
        · cases applyOk <;> simp [hp, hc, hr]
    · simp [hp]
      exact h
  | confirm =>
    unfold applyOp confirm
    cases hs : st.pendingSlot with
    | nil => simp [hs]
    | cons pc rest => simp [hs]
  | revert =>
    unfold applyOp revert
    cases hs : st.pendingSlot with
    | nil => simp [hs]
    | cons pc rest => simp [hs]
  | timeout now fireId =>
    unfold applyOp timeoutFire
    cases hs : st.pendingSlot with
    | nil => simp [hs]
    | cons pc rest =>
      by_cases hg : pc.id = fireId ∧ pc.state = ChangeState.Staged ∧
          pc.created_at + pc.timeout_seconds ≤ now
      · simp [hs, hg]
      · simpa [hg, hs] using h
  | restart =>
    unfold applyOp restartRecover
    cases hs : st.pendingSlot with
    | nil => simp [hs]
    | cons pc rest =>
      by_cases hg : pc.state = ChangeState.Staged <;> simp [hs, hg]

/-- Witness for C1: the invariant holds at a concrete idle state and is
preserved by a concrete stage operation. -/
theorem ops_preserve_atMostOnePending_witness :
    atMostOnePending sampleIdleState ∧
    atMostOnePending
      (applyOp (Op.stage 0 true samplePolicy [sampleForward] [] sampleDMZOff)
        sampleIdleState) :=
  ⟨by decide,
   ops_preserve_atMostOnePending
     (Op.stage 0 true samplePolicy [sampleForward] [] sampleDMZOff)
     sampleIdleState (by decide)⟩

/-- C2: a `Staged` pending change on which neither confirm nor revert is
called transitions to `Reverted` exactly when the clock reaches
`created_at + 120` seconds, and afterwards the active RuleSet (and the live
rules) equal the rules_before of that change. -/
theorem timeoutFire_reverts_at_deadline (st : EngineState) (pc : PendingChange)
    (now : Nat) (hslot : st.pendingSlot = [pc])
    (hstate : pc.state = ChangeState.Staged)
    (h120 : pc.timeout_seconds = 120) :
    ((timeoutFire now pc.id st).1 = some { pc with state := ChangeState.Reverted }
        ↔ pc.created_at + 120 ≤ now)
  ∧ (pc.created_at + 120 ≤ now →
        (timeoutFire now pc.id st).2.activeRules = pc.rules_before
      ∧ (timeoutFire now pc.id st).2.liveRules = pc.rules_before
      ∧ (timeoutFire now pc.id st).2.pendingSlot = [])
  ∧ (now < pc.created_at + 120 → timeoutFire now pc.id st = (none, st)) := by
  unfold timeoutFire
  rw [hslot]
  by_cases hn : pc.created_at + 120 ≤ now
  · simp only [hstate, h120, hn]
    simp [hn]
  · simp only [hstate, h120, hn]
    simp [hn, Nat.lt_of_not_le hn]

/-- Witness for C2: the concrete staged change reverts when the clock passes
its deadline. -/
theorem timeoutFire_reverts_at_deadline_witness :
    ((timeoutFire 2000 samplePending.id samplePendingState).1
        = some { samplePending with state := ChangeState.Reverted }
      ↔ samplePending.created_at + 120 ≤ 2000)
  ∧ (samplePending.created_at + 120 ≤ 2000 →
        (timeoutFire 2000 samplePending.id samplePendingState).2.activeRules
          = samplePending.rules_before
      ∧ (timeoutFire 2000 samplePending.id samplePendingState).2.liveRules
          = samplePending.rules_before
      ∧ (timeoutFire 2000 samplePending.id samplePendingState).2.pendingSlot = [])
  ∧ (2000 < samplePending.created_at + 120 →
      timeoutFire 2000 samplePending.id samplePendingState
        = (none, samplePendingState)) :=
  timeoutFire_reverts_at_deadline samplePendingState samplePending 2000 rfl rfl rfl

/-- C3: a stage call issued while a pending change exists returns
`ConflictError` synchronously and leaves the engine state — in particular
the existing pending record with all its fields — exactly unchanged. -/
theorem stage_conflict_no_side_effects (now : Nat) (applyOk : Bool)
    (policy : FirewallPolicy) (forwards : List PortForward)
    (blocked : List String) (dmz : DMZConfig) (st : EngineState)
    (h : st.pendingSlot ≠ []) :
    stage now applyOk policy forwards blocked dmz st
      = (StageResult.failed EngineError.ConflictError, st) := by
  unfold stage
  simp [h]

/-- Witness for C3: a concrete stage call against the concrete pending state
is rejected with `ConflictError` and changes nothing. -/
theorem stage_conflict_no_side_effects_witness :
    stage 42 true samplePolicy [sampleForward] [] sampleDMZOff samplePendingState
      = (StageResult.failed EngineError.ConflictError, samplePendingState) :=
  stage_conflict_no_side_effects 42 true samplePolicy [sampleForward] []
    sampleDMZOff samplePendingState (by decide)

/-- C4: when an IP appears both in the blocked list and as a port-forward or
DMZ target, the compiled RuleSet splits as a prefix containing no forward or
DMZ rule, then the DROP rule for that IP, then the rest — so its DROP rule
comes strictly before every forward and DMZ rule. -/
theorem compile_blocklist_precedes_forwards (policy : FirewallPolicy)
    (forwards : List PortForward) (blocked : List String) (dmz : DMZConfig)
    (rs : RuleSet) (ip : String)
    (hc : compile policy forwards blocked dmz = Except.ok rs)
    (hb : ip ∈ blocked)
    (_ht : (∃ pf ∈ forwards, pf.internal_ip = ip) ∨
          (dmz.enabled = true ∧ dmz.target_ip = some ip)) :
    ∃ l1 l2, rs = l1 ++ Rule.dropIP ip :: l2 ∧
      ∀ r ∈ l1, isForwardRule r = false := by
  unfold compile at hc
  split at hc
  · exact absurd hc (by simp)
  · split at hc
    · exact absurd hc (by simp)
    · obtain ⟨b1, b2, hbb⟩ := List.append_of_mem hb
      refine ⟨[Rule.acceptEstablished, Rule.acceptLAN] ++ b1.map Rule.dropIP,
        b2.map Rule.dropIP
          ++ (match dmz.target_ip with
              | some t => if dmz.enabled then [Rule.dmzForwardAll t] else []
              | none => [])
          ++ forwards.map Rule.portForward
          ++ [defaultRule policy], ?_, ?_⟩
      · rw [Except.ok.injEq] at hc
        rw [← hc, hbb]
        simp [List.map_append]
      · intro r hr
        rcases List.mem_append.mp hr with h2 | h2
        · rcases List.mem_cons.mp h2 with rfl | h3
          · rfl
          · rcases List.mem_cons.mp h3 with rfl | h4
            · rfl
            · exact absurd h4 (List.not_mem_nil r)
        · obtain ⟨a, _, rfl⟩ := List.mem_map.mp h2
          rfl

/-- Witness for C4: a concrete configuration blocking the forward target of
`sampleForward` compiles with the DROP rule ahead of the forward rule. -/
theorem compile_blocklist_precedes_forwards_witness :
    ∃ l1 l2,
      ([Rule.acceptEstablished, Rule.acceptLAN, Rule.dropIP "10.0.0.2",
        Rule.portForward sampleForward, Rule.defaultPolicy Policy.DROP] : RuleSet)
        = l1 ++ Rule.dropIP "10.0.0.2" :: l2 ∧
      ∀ r ∈ l1, isForwardRule r = false :=
  compile_blocklist_precedes_forwards samplePolicy [sampleForward]
    ["10.0.0.2"] sampleDMZOff
    [Rule.acceptEstablished, Rule.acceptLAN, Rule.dropIP "10.0.0.2",
     Rule.portForward sampleForward, Rule.defaultPolicy Policy.DROP]
    "10.0.0.2" (by decide) (by decide)
    (Or.inl ⟨sampleForward, by decide, rfl⟩)

/-! ## Claims about the dashboard firewall page -/

/-- C5: the dmz/set body sent by `setDMZ` has `enabled` true iff the trimmed
input is nonempty and `target_ip` the trimmed input when nonempty, null
otherwise; `disableDMZ` always sends `{ enabled: false, target_ip: null }`;
neither ever combines `enabled = true` with no target IP. -/
theorem setDMZ_never_enabled_without_target (s : String) :
    ((Frontend.setDMZBody s).enabled = true ↔ Frontend.jsTrim s ≠ "")
  ∧ ((Frontend.setDMZBody s).target_ip
      = if Frontend.jsTrim s = "" then none else some (Frontend.jsTrim s))
  ∧ ¬((Frontend.setDMZBody s).enabled = true
        ∧ (Frontend.setDMZBody s).target_ip = none)
  ∧ Frontend.disableDMZBody = { enabled := false, target_ip := none }
  ∧ ¬(Frontend.disableDMZBody.enabled = true
        ∧ Frontend.disableDMZBody.target_ip = none) := by
  unfold Frontend.setDMZBody Frontend.disableDMZBody Frontend.jsStringTruthy
  by_cases h : Frontend.jsTrim s = "" <;> simp [h]

/-- C6: the body sent by `removePortForward` is the listed entry itself, so
its uniqueness key `(protocol, external_port)` — the key of the add request
that inserted the entry — identifies the entry to remove. -/
theorem removePortForward_keyed_like_add (pf : Frontend.PortForwardEntry) :
    Frontend.portForwardKey (Frontend.removePortForwardBody pf)
      = (pf.protocol, pf.external_port)
  ∧ Frontend.removePortForwardBody pf = pf :=
  ⟨rfl, rfl⟩

/-- The response handler of `fetchRawRules` changes no page field other than
`rawRules`. -/
theorem fetchRawRulesHandler_frame (resp : Option Frontend.RawRules)
    (t : Frontend.PageState) :
    (Frontend.fetchRawRulesHandler resp t).status = t.status
  ∧ (Frontend.fetchRawRulesHandler resp t).portForwards = t.portForwards
  ∧ (Frontend.fetchRawRulesHandler resp t).blockedIPs = t.blockedIPs
  ∧ (Frontend.fetchRawRulesHandler resp t).dmz = t.dmz
  ∧ (Frontend.fetchRawRulesHandler resp t).pendingInfo = t.pendingInfo := by
  cases resp <;> exact ⟨rfl, rfl, rfl, rfl, rfl⟩

/-- The Show Raw Rules click handler changes no page field other than
`rawRules` and `showRawRules`. -/
theorem showRawRulesClick_frame (resp : Option Frontend.RawRules)
    (t : Frontend.PageState) :
    (Frontend.showRawRulesClick resp t).status = t.status
  ∧ (Frontend.showRawRulesClick resp t).portForwards = t.portForwards
  ∧ (Frontend.showRawRulesClick resp t).blockedIPs = t.blockedIPs
  ∧ (Frontend.showRawRulesClick resp t).dmz = t.dmz
  ∧ (Frontend.showRawRulesClick resp t).pendingInfo = t.pendingInfo := by
  unfold Frontend.showRawRulesClick
  dsimp only
  split
  · exact fetchRawRulesHandler_frame resp _
  · exact ⟨rfl, rfl, rfl, rfl, rfl⟩

/-- C7: the raw-rules viewer is read-only: `fetchRawRules` issues a GET with
no body, its response handler writes only `rawRules`, and the toggle button
additionally writes only `showRawRules` — `status`, `portForwards`,
`blockedIPs`, `dmz` and `pendingInfo` are unchanged by both. -/
theorem rawRules_viewer_read_only (resp : Option Frontend.RawRules)
    (s : Frontend.PageState) :
    Frontend.fetchRawRulesRequest.method = Frontend.HttpMethod.GET
  ∧ Frontend.fetchRawRulesRequest.hasBody = false
  ∧ (Frontend.fetchRawRulesHandler resp s).status = s.status
  ∧ (Frontend.fetchRawRulesHandler resp s).portForwards = s.portForwards
  ∧ (Frontend.fetchRawRulesHandler resp s).blockedIPs = s.blockedIPs
  ∧ (Frontend.fetchRawRulesHandler resp s).dmz = s.dmz
  ∧ (Frontend.fetchRawRulesHandler resp s).pendingInfo = s.pendingInfo
  ∧ (Frontend.showRawRulesClick resp s).status = s.status
  ∧ (Frontend.showRawRulesClick resp s).portForwards = s.portForwards
  ∧ (Frontend.showRawRulesClick resp s).blockedIPs = s.blockedIPs
  ∧ (Frontend.showRawRulesClick resp s).dmz = s.dmz
  ∧ (Frontend.showRawRulesClick resp s).pendingInfo = s.pendingInfo := by
  obtain ⟨h1, h2, h3, h4, h5⟩ := fetchRawRulesHandler_frame resp s
  obtain ⟨g1, g2, g3, g4, g5⟩ := showRawRulesClick_frame resp s
  exact ⟨rfl, rfl, h1, h2, h3, h4, h5, g1, g2, g3, g4, g5⟩

/-- C8: every toggle body carries `enabled` equal to the boolean negation of
the displayed `status.enabled`, so the UI never requests the value already
shown as active. -/
theorem toggleFirewall_sends_negation (st : Frontend.FirewallStatus) :
    (Frontend.toggleFirewallBody st).enabled = !st.enabled
  ∧ (Frontend.toggleFirewallBody st).enabled ≠ st.enabled := by
  cases h : st.enabled <;> simp [Frontend.toggleFirewallBody, h]

/-- Two-digit zero padding of `toString` agrees with the case split on one
versus two decimal digits, for values below 60. -/
theorem padStart_toString_below60 : ∀ m : Nat, m < 60 →
    Frontend.padStart 2 '0' (toString m)
      = (if m < 10 then "0" ++ toString m else toString m) := by
  decide

/-- C9: `formatTime` produces the minutes, a colon, and the two-digit
zero-padded seconds, matching the transcription of the claim; in particular
`formatTime 120 = "2:00"` and `formatTime 5 = "0:05"`; and the pending
banner renders a null `seconds_remaining` as `0:00`. -/
theorem formatTime_minutes_colon_padded_seconds (s : Nat) :
    Frontend.formatTime s = Frontend.formatTimeClaim s
  ∧ Frontend.formatTime 120 = "2:00"
  ∧ Frontend.formatTime 5 = "0:05"
  ∧ (∀ b : Bool,
      Frontend.bannerCountdownText { pending := b, seconds_remaining := none }
        = "0:00") := by
  refine ⟨?_, by decide, by decide, by intro b; cases b <;> decide⟩
  simp only [Frontend.formatTime, Frontend.formatTimeClaim]
  rw [padStart_toString_below60 (s % 60) (Nat.mod_lt s (by norm_num))]

/-- C10: `addPortForward` issues a request iff all three of external_port,
internal_ip and internal_port are truthy, and the body it then sends has the
`parseInt` results in both port fields and the selected protocol, one of
tcp, udp or both. -/
theorem addPortForward_guard_and_body (form : Frontend.NewPortForwardForm) :
    ((Frontend.addPortForwardRequest form).isSome
      ↔ (Frontend.jsNumberTruthy form.external_port = true
          ∧ form.internal_ip ≠ ""
          ∧ Frontend.jsNumberTruthy form.internal_port = true))
  ∧ (∀ body, Frontend.addPortForwardRequest form = some body →
        body.external_port = Frontend.jsParseInt form.external_port
      ∧ body.internal_port = Frontend.jsParseInt form.internal_port
      ∧ body.internal_ip = form.internal_ip
      ∧ body.protocol = form.protocol.value
      ∧ (body.protocol = "tcp" ∨ body.protocol = "udp"
          ∨ body.protocol = "both")) := by
  unfold Frontend.addPortForwardRequest
  constructor
  · by_cases h : Frontend.jsNumberTruthy form.external_port = true
        ∧ Frontend.jsStringTruthy form.internal_ip = true
        ∧ Frontend.jsNumberTruthy form.internal_port = true
    · rw [if_pos h]
      simp only [Option.isSome_some, true_iff]
      refine ⟨h.1, ?_, h.2.2⟩
      simpa [Frontend.jsStringTruthy] using h.2.1
    · rw [if_neg h]
      constructor
      · intro hfalse
        exact absurd hfalse (by simp)
      · intro hc
        exact (h ⟨hc.1, by simpa [Frontend.jsStringTruthy] using hc.2.1,
          hc.2.2⟩).elim
  · intro body hb
    split at hb
    · cases hb
      refine ⟨rfl, rfl, rfl, rfl, ?_⟩
      cases form.protocol <;> simp [Frontend.ProtocolOption.value]
    · exact absurd hb (by simp)

/-- Witness for C10: a fully filled concrete form issues the add request with
the parsed ports. -/
theorem addPortForward_guard_and_body_witness :
    ({ protocol := "tcp", external_port := some 8080,
       internal_ip := "10.22.22.100", internal_port := some 80 }
        : Frontend.AddPortForwardBody).external_port
      = Frontend.jsParseInt (Frontend.NumberInputVal.num 8080)
  ∧ ({ protocol := "tcp", external_port := some 8080,
       internal_ip := "10.22.22.100", internal_port := some 80 }
        : Frontend.AddPortForwardBody).internal_port
      = Frontend.jsParseInt (Frontend.NumberInputVal.num 80)
  ∧ ({ protocol := "tcp", external_port := some 8080,
       internal_ip := "10.22.22.100", internal_port := some 80 }
        : Frontend.AddPortForwardBody).internal_ip = "10.22.22.100"
  ∧ ({ protocol := "tcp", external_port := some 8080,
       internal_ip := "10.22.22.100", internal_port := some 80 }
        : Frontend.AddPortForwardBody).protocol
      = Frontend.ProtocolOption.value Frontend.ProtocolOption.tcp
  ∧ (({ protocol := "tcp", external_port := some 8080,
        internal_ip := "10.22.22.100", internal_port := some 80 }
        : Frontend.AddPortForwardBody).protocol = "tcp"
      ∨ ({ protocol := "tcp", external_port := some 8080,
           internal_ip := "10.22.22.100", internal_port := some 80 }
          : Frontend.AddPortForwardBody).protocol = "udp"
      ∨ ({ protocol := "tcp", external_port := some 8080,
           internal_ip := "10.22.22.100", internal_port := some 80 }
          : Frontend.AddPortForwardBody).protocol = "both") :=
  (addPortForward_guard_and_body
    { protocol := Frontend.ProtocolOption.tcp,
      external_port := Frontend.NumberInputVal.num 8080,
      internal_ip := "10.22.22.100",
      internal_port := Frontend.NumberInputVal.num 80 }).2
    { protocol := "tcp", external_port := some 8080,
      internal_ip := "10.22.22.100", internal_port := some 80 }
    (by decide)

end RouterUI
